import Mathlib

/-!
Shallow embedding of `src/main.py` (a FastAPI relay around the Google
PageSpeed API) : the `audit_url` endpoint, its in-memory TTL cache, the
report normalisation of a raw PageSpeed payload, and the mock fallback
report.  Machine reals (`time.time()`, JSON numbers) are modelled as `Rat`;
JSON nullability is explicit (`Option` for an absent field, `Option (Option _)`
when a present field may also be JSON `null`).  Python exceptions are an
explicit error type threaded through `Except`.
-/

namespace PerfService

/-- Python `str.startswith` on code-point lists: `listIsPre pat s` is true
iff `pat` is a prefix of `s`. -/
def listIsPre : List Char → List Char → Bool
  | [], _ => true
  | _ :: _, [] => false
  | a :: as, b :: bs => a == b && listIsPre as bs

/-- Python `pat in s` (substring containment) on code-point lists. -/
def listHasSub (pat : List Char) : List Char → Bool
  | [] => listIsPre pat []
  | b :: bs => listIsPre pat (b :: bs) || listHasSub pat bs

/-- Python `s.startswith(pat)`. -/
def pyStartsWith (s pat : String) : Bool :=
  listIsPre pat.toList s.toList

/-- Python `pat in s` for strings. -/
def strHasSub (s pat : String) : Bool :=
  listHasSub pat.toList s.toList

/-- `src/main.py` lines 43-44: prepend `https://` unless the raw URL already
starts with the four characters `http`. -/
def normalizeUrl (raw : String) : String :=
  if pyStartsWith raw "http" then raw else "https://" ++ raw

/-- An opportunity record as built at `src/main.py` lines 103-109: `title`,
`description` are `audit.get(...)` with no default, so possibly `None`;
`score` is guaranteed a number on every selected entry; `saving` defaults
to `0`. -/
structure Opportunity where
  id : String
  title : Option String
  description : Option String
  score : Rat
  saving : Rat
deriving DecidableEq, Repr

/-- The `scores` object of a result (`src/main.py` lines 117-122).  Each
field is `categories.get(name, {}).get("score", 0)`: a present-but-`null`
JSON score yields Python `None`, modelled as `none`. -/
structure Scores where
  performance : Option Rat
  accessibility : Option Rat
  best_practices : Option Rat
  seo : Option Rat
deriving DecidableEq, Repr

/-- The `metrics` object of a result (`src/main.py` lines 123-134). -/
structure Metrics where
  fcp : String
  fcp_score : Option Rat
  lcp : String
  lcp_score : Option Rat
  cls : String
  cls_score : Option Rat
  tbt : String
  tbt_score : Option Rat
  si : String
  si_score : Option Rat
deriving DecidableEq, Repr

/-- The report shape returned by the endpoint (`src/main.py` lines 115-137
and 144-181). -/
structure Report where
  url : String
  scores : Scores
  metrics : Metrics
  opportunities : List Opportunity
  is_mock : Bool
deriving DecidableEq, Repr

/-- The mock result literal of `src/main.py` lines 144-181.  The block is
inlined in the handler and reads the enclosing `url` variable, so the
produced report carries the normalized URL of the current call. -/
def mockResult (url : String) : Report where
  url := url
  scores :=
    { performance := some 0.72
      accessibility := some 0.85
      best_practices := some 0.90
      seo := some 0.92 }
  metrics :=
    { fcp := "1.2 s", fcp_score := some 0.85
      lcp := "2.1 s", lcp_score := some 0.88
      cls := "0.05", cls_score := some 0.95
      tbt := "120 ms", tbt_score := some 0.90
      si := "1.8 s", si_score := some 0.82 }
  opportunities :=
    [ { id := "unused-javascript",
        title := some "Reduce unused JavaScript",
        description := some "Remove unused JavaScript to reduce bytes consumed by network activity.",
        score := 0.65,
        saving := 350 },
      { id := "modern-image-formats",
        title := some "Serve images in next-gen formats",
        description := some "Image formats like WebP and AVIF often provide better compression than PNG or JPEG.",
        score := 0.70,
        saving := 200 } ]
  is_mock := true

/-- One entry of `lighthouseResult.audits` in a raw PageSpeed payload.
`score` distinguishes an absent field (`none`), a present `null`
(`some none`) and a number (`some (some q)`); `detailsType` is
`details.get("type")` and `overallSavingsMs` is
`details.get("overallSavingsMs")`. -/
structure AuditEntry where
  key : String
  title : Option String
  description : Option String
  displayValue : Option String
  score : Option (Option Rat)
  detailsType : Option String
  overallSavingsMs : Option Rat
deriving DecidableEq, Repr

/-- One entry of `lighthouseResult.categories`: its key and its `score`
field (absent / `null` / number). -/
structure RawCategory where
  name : String
  score : Option (Option Rat)
deriving DecidableEq, Repr

/-- The parts of a raw PageSpeed JSON payload the handler reads.  Python
dicts iterate in insertion order, so `audits` is an ordered list. -/
structure RawPayload where
  categories : List RawCategory
  audits : List AuditEntry
deriving DecidableEq, Repr

/-- The Python exceptions that can arise inside the handler's outer `try`.
Each constructor models a class deriving from `builtins.Exception`. -/
inductive PyExc where
  /-- `Exception("Force mock")` / `Exception("Quota exceeded")`. -/
  | generic (msg : String)
  /-- `httpx.TransportError` and friends (network failure, timeout),
  raised by `client.get`; derives from `httpx.HTTPError < Exception`. -/
  | transportError
  /-- `response.json()` failed; `json.JSONDecodeError < ValueError < Exception`. -/
  | jsonError
  /-- `TypeError` from `None < 0.9`; derives from `Exception`. -/
  | typeError
  /-- `httpx.HTTPStatusError` raised by `raise_for_status`; derives from
  `httpx.HTTPError < Exception`.  Carries status and `response.text`. -/
  | httpStatusError (status : Nat) (body : String)
  /-- `fastapi.HTTPException`, a subclass of Starlette's
  `HTTPException < Exception`.  Carries status code and detail. -/
  | httpException (status : Nat) (detail : String)
deriving DecidableEq, Repr

/-- Which of the modelled exception classes `except Exception` catches:
all of them, since every constructor of `PyExc` models a class that
derives from `builtins.Exception` (none is a bare `BaseException` such as
`KeyboardInterrupt`). -/
def isExceptionSubclass : PyExc → Bool
  | .generic _ => true
  | .transportError => true
  | .jsonError => true
  | .typeError => true
  | .httpStatusError _ _ => true
  | .httpException _ _ => true

/-- `audits.get(key, {})`: the empty-dict default, on which every further
`.get` yields its own default. -/
def emptyAuditEntry : AuditEntry where
  key := ""
  title := none
  description := none
  displayValue := none
  score := none
  detailsType := none
  overallSavingsMs := none

/-- `audits.get(key, {})` over the ordered audit list. -/
def getAudit (audits : List AuditEntry) (key : String) : AuditEntry :=
  (audits.find? (fun e => e.key == key)).getD emptyAuditEntry

/-- `get_metric(key)` of `src/main.py` lines 93-94:
`audits.get(key, {}).get("displayValue", "N/A")`. -/
def get_metric (audits : List AuditEntry) (key : String) : String :=
  (getAudit audits key).displayValue.getD "N/A"

/-- `get_score(key)` of `src/main.py` lines 96-97:
`audits.get(key, {}).get("score", 0)`; a present `null` score is Python
`None`, modelled `none`. -/
def get_score (audits : List AuditEntry) (key : String) : Option Rat :=
  match (getAudit audits key).score with
  | none => some 0
  | some v => v

/-- `categories.get(name, {}).get("score", 0)` (`src/main.py` lines
118-121). -/
def catScore (cats : List RawCategory) (name : String) : Option Rat :=
  match (cats.find? (fun c => c.name == name)).map (fun c => c.score) with
  | none => some 0
  | some none => some 0
  | some (some v) => v

/-- The per-entry test and record build of the opportunity loop
(`src/main.py` lines 101-109).  Python evaluates
`audit.get("details", {}).get("type") == "opportunity"` first; only when
that holds is `audit.get("score", 1) < 0.9` evaluated, where an absent
score defaults to `1` (excluded) and a `null` score makes `None < 0.9`
raise `TypeError`. -/
def selectOpp (e : AuditEntry) : Except PyExc (Option Opportunity) :=
  if e.detailsType == some "opportunity" then
    match e.score with
    | none => .ok none
    | some none => .error .typeError
    | some (some q) =>
        if q < 0.9 then
          .ok (some { id := e.key, title := e.title, description := e.description
                      score := q, saving := e.overallSavingsMs.getD 0 })
        else .ok none
  else .ok none

/-- The opportunity loop over all audit entries, in dict order, stopping at
the first raised exception. -/
def collectOpps : List AuditEntry → Except PyExc (List Opportunity)
  | [] => .ok []
  | e :: es =>
      match selectOpp e with
      | .error err => .error err
      | .ok o =>
          match collectOpps es with
          | .error err => .error err
          | .ok rest => .ok (match o with | some x => x :: rest | none => rest)

/-- `opportunities.sort(key=lambda x: x.get("saving", 0), reverse=True)`:
Python's sort is stable, and with `reverse=True` it orders by key
descending keeping the original order of equal keys — exactly stable
insertion sort under `b.saving ≤ a.saving`. -/
def sortOpps (l : List Opportunity) : List Opportunity :=
  l.insertionSort (fun a b => b.saving ≤ a.saving)

/-- The success-path result literal (`src/main.py` lines 100-137): extract
scores, metrics and the sorted, truncated opportunity list from the raw
payload.  Fails (propagating the `TypeError`) when the opportunity scan
raises. -/
def buildResult (url : String) (p : RawPayload) : Except PyExc Report :=
  match collectOpps p.audits with
  | .error err => .error err
  | .ok opps => .ok
    { url := url
      scores :=
        { performance := catScore p.categories "performance"
          accessibility := catScore p.categories "accessibility"
          best_practices := catScore p.categories "best-practices"
          seo := catScore p.categories "seo" }
      metrics :=
        { fcp := get_metric p.audits "first-contentful-paint"
          fcp_score := get_score p.audits "first-contentful-paint"
          lcp := get_metric p.audits "largest-contentful-paint"
          lcp_score := get_score p.audits "largest-contentful-paint"
          cls := get_metric p.audits "cumulative-layout-shift"
          cls_score := get_score p.audits "cumulative-layout-shift"
          tbt := get_metric p.audits "total-blocking-time"
          tbt_score := get_score p.audits "total-blocking-time"
          si := get_metric p.audits "speed-index"
          si_score := get_score p.audits "speed-index" }
      opportunities := (sortOpps opps).take 5
      is_mock := false }

/-- What the upstream `client.get` comes back with: either the request
itself raises (network failure / timeout), or a response with a status, a
body text, and — when the body parses — a JSON payload. -/
inductive UpstreamOutcome where
  | transportError
  | response (status : Nat) (body : String) (json : Option RawPayload)
deriving Repr

/-- The body of the outer `try` after the cache check (`src/main.py` lines
67-139), as the raised-exception-or-result it produces, paired with
whether the upstream GET was issued.  The inner
`except httpx.HTTPStatusError` rewraps only that class into
`HTTPException(status, "PageSpeed API error: " + text)`; everything else
passes through to the outer handler. -/
def upstreamAttempt (url : String) (up : UpstreamOutcome) :
    Except PyExc Report × Bool :=
  if strHasSub url "mock" then
    (.error (.generic "Force mock"), false)
  else
    let inner : Except PyExc Report :=
      match up with
      | .transportError => .error .transportError
      | .response status body json =>
          if status == 429 then .error (.generic "Quota exceeded")
          else if status < 200 || 300 ≤ status then
            .error (.httpStatusError status body)
          else
            match json with
            | none => .error .jsonError
            | some p => buildResult url p
    let handled : Except PyExc Report :=
      match inner with
      | .error (.httpStatusError s b) =>
          .error (.httpException s ("PageSpeed API error: " ++ b))
      | x => x
    (handled, true)

/-- A cache entry: `{"data": ..., "timestamp": ...}` (`src/main.py` lines
184-187). -/
structure CacheEntry where
  data : Report
  timestamp : Rat
deriving DecidableEq, Repr

/-- The module-level `CACHE` dict, as a map from URL keys to entries. -/
def CacheMap : Type := String → Option CacheEntry

/-- The empty cache the process starts with. -/
def cacheEmpty : CacheMap := fun _ => none

/-- `CACHE_DURATION = 600` seconds. -/
def CACHE_DURATION : Rat := 600

/-- The cache read of `src/main.py` lines 48-51: a hit is served only when
`now - timestamp < CACHE_DURATION`; a stale entry is ignored but not
removed. -/
def cacheGet (c : CacheMap) (key : String) (now : Rat) : Option Report :=
  match c key with
  | some e => if now - e.timestamp < CACHE_DURATION then some e.data else none
  | none => none

/-- The cache write of `src/main.py` lines 184-187: unconditional overwrite
with the new report and the timestamp taken at the start of the call. -/
def cachePut (c : CacheMap) (key : String) (r : Report) (now : Rat) : CacheMap :=
  fun k => if k == key then some { data := r, timestamp := now } else c k

/-- What one call to the endpoint produces: the value the HTTP layer sends
(`.ok` a report, or `.error (status, detail)` had an `HTTPException`
escaped the handler), the cache state after the call, and whether the
upstream GET was issued. -/
structure AuditOutput where
  result : Except (Nat × String) Report
  cache : CacheMap
  upstreamCalled : Bool

/-- The `HTTPException` the HTTP layer would render had a `PyExc` escaped
the handler (FastAPI maps any other uncaught exception to a 500). -/
def escapedError : PyExc → Nat × String
  | .httpException s d => (s, d)
  | _ => (500, "Internal Server Error")

/-- The whole `audit_url` handler (`src/main.py` lines 39-189): normalize
the URL, serve a fresh cache hit, otherwise run the upstream attempt; the
outer `except Exception` turns every caught exception into the mock
result; finally write the result back into the cache.  `now` is the single
`time.time()` sample taken at line 47. -/
def audit_url (c : CacheMap) (now : Rat) (rawUrl : String)
    (up : UpstreamOutcome) : AuditOutput :=
  let url := normalizeUrl rawUrl
  match cacheGet c url now with
  | some r => { result := .ok r, cache := c, upstreamCalled := false }
  | none =>
      let att := upstreamAttempt url up
      match att.1 with
      | .ok r =>
          { result := .ok r, cache := cachePut c url r now
            upstreamCalled := att.2 }
      | .error e =>
          if isExceptionSubclass e then
            { result := .ok (mockResult url)
              cache := cachePut c url (mockResult url) now
              upstreamCalled := att.2 }
          else
            { result := .error (escapedError e), cache := c
              upstreamCalled := att.2 }

/-! Spec-side definitions, written from the spec's words, to be compared
with the source-side definitions above. -/

/-- From the spec's words (§3): the input "begins with a scheme
(`http`/`https`)", i.e. starts with `http://` or `https://`. -/
def beginsWithHttpScheme (s : String) : Bool :=
  pyStartsWith s "http://" || pyStartsWith s "https://"

/-- From the spec's words (§4.3): the audit entries "whose `details.type ==
"opportunity"` AND whose `score < 0.9` (score omitted defaults to 1, i.e.,
excluded)". -/
def specSelected (es : List AuditEntry) : List AuditEntry :=
  es.filter (fun e =>
    e.detailsType == some "opportunity" && ((e.score.bind id).getD 1 < 0.9))

/-- From the spec's words (§4.3): "emit `{id: audit key, title,
description, score, saving: details.overallSavingsMs default 0}`". -/
def specEmit (e : AuditEntry) : Opportunity where
  id := e.key
  title := e.title
  description := e.description
  score := (e.score.bind id).getD 1
  saving := e.overallSavingsMs.getD 0

/-- From the spec's words (§4.3): selected entries, "sort ... by `saving`
descending; truncate to the first 5", ties in stable original order. -/
def specOpportunities (es : List AuditEntry) : List Opportunity :=
  (sortOpps ((specSelected es).map specEmit)).take 5

/-- No audit entry of opportunity type carries a present-but-`null` score
(the one shape on which the source's comparison `None < 0.9` raises). -/
def NoNullOppScore (es : List AuditEntry) : Prop :=
  ∀ e ∈ es, e.detailsType = some "opportunity" → e.score = some none → False

/-- Cache states reachable by the service: every cached entry whose key
contains `mock` holds a mock report.  Holds of the empty start state and
is preserved by every call (proved below). -/
def MockInv (c : CacheMap) : Prop :=
  ∀ k e, c k = some e → strHasSub k "mock" = true → e.data.is_mock = true

/-- A sample raw payload exercising opportunity selection (scores 0.5,
0.95, 0.3 and one omitted score, plus a non-opportunity entry), the
descending sort by saving and the truncation. -/
def samplePayload : RawPayload where
  categories := [ { name := "performance", score := some (some 0.61) } ]
  audits :=
    [ { key := "render-blocking-resources",
        title := some "Eliminate render-blocking resources",
        description := none, displayValue := none, score := some (some 0.5),
        detailsType := some "opportunity", overallSavingsMs := some 100 },
      { key := "uses-http2", title := none, description := none,
        displayValue := none, score := some (some 0.95),
        detailsType := some "opportunity", overallSavingsMs := some 999 },
      { key := "offscreen-images", title := none, description := none,
        displayValue := none, score := some (some 0.3),
        detailsType := some "opportunity", overallSavingsMs := some 400 },
      { key := "unsized-images", title := none, description := none,
        displayValue := none, score := none,
        detailsType := some "opportunity", overallSavingsMs := none },
      { key := "diagnostics", title := none, description := none,
        displayValue := none, score := some (some 0.1),
        detailsType := some "table", overallSavingsMs := some 777 } ]

/-- A sample raw payload whose single audit entry is of opportunity type
with a present-but-`null` score, the shape on which `None < 0.9` raises
`TypeError`. -/
def nullScorePayload : RawPayload where
  categories := []
  audits :=
    [ { key := "server-response-time", title := some "Initial server response",
        description := none, displayValue := none, score := some none,
        detailsType := some "opportunity", overallSavingsMs := some 50 } ]

/-! Helper lemmas. -/

theorem isExceptionSubclass_eq_true (e : PyExc) : isExceptionSubclass e = true := by
  cases e <;> rfl

theorem listIsPre_append (p q l : List Char) (h : listIsPre (p ++ q) l = true) :
    listIsPre p l = true := by
  induction p generalizing l with
  | nil => rfl
  | cons a as ih =>
    cases l with
    | nil => simp [listIsPre] at h
    | cons b bs =>
      simp only [List.cons_append, listIsPre, Bool.and_eq_true] at h ⊢
      exact ⟨h.1, ih bs h.2⟩

theorem pyStartsWith_http_of_scheme (s : String) (h : beginsWithHttpScheme s = true) :
    pyStartsWith s "http" = true := by
  unfold beginsWithHttpScheme at h
  simp only [Bool.or_eq_true] at h
  rcases h with h | h
  · unfold pyStartsWith at h ⊢
    rw [(by decide : "http://".toList = "http".toList ++ "://".toList)] at h
    exact listIsPre_append _ _ _ h
  · unfold pyStartsWith at h ⊢
    rw [(by decide : "https://".toList = "http".toList ++ "s://".toList)] at h
    exact listIsPre_append _ _ _ h

/-- C1: every execution path of the handler resolves to a returned report:
whatever the cache state, the input URL and the upstream behaviour
(including transport failures, any HTTP status, unparseable bodies and the
forced mock trigger), the caller receives `Except.ok` of some report,
never an error. -/
theorem audit_never_raises (c : CacheMap) (now : Rat) (raw : String)
    (up : UpstreamOutcome) :
    ∃ r, (audit_url c now raw up).result = Except.ok r := by
  simp only [audit_url]
  split
  · exact ⟨_, rfl⟩
  · split
    · exact ⟨_, rfl⟩
    · rename_i e _
      rw [if_pos (isExceptionSubclass_eq_true e)]
      exact ⟨_, rfl⟩

/-- C8: a `get` after a `put` at the same key returns the stored report
exactly when fewer than `CACHE_DURATION = 600` seconds have elapsed since
the write, and behaves as absent otherwise, while the entry itself stays
stored (lazy expiry, no purge). -/
theorem cache_get_after_put (c : CacheMap) (k : String) (r : Report)
    (t0 t1 : Rat) :
    CACHE_DURATION = 600 ∧
    cacheGet (cachePut c k r t0) k t1 =
      (if t1 - t0 < CACHE_DURATION then some r else none) ∧
    cachePut c k r t0 k = some { data := r, timestamp := t0 } := by
  refine ⟨rfl, ?_, ?_⟩ <;> simp [cacheGet, cachePut]

/-- C3: when the call reaches upstream (fresh-miss cache, no forced mock
trigger) and the provider answers HTTP 429, the caller receives the
fallback report with `is_mock = true` and never an HTTP error. -/
theorem quota_429_falls_back (c : CacheMap) (now : Rat) (raw body : String)
    (json : Option RawPayload)
    (hc : cacheGet c (normalizeUrl raw) now = none)
    (hm : strHasSub (normalizeUrl raw) "mock" = false) :
    (audit_url c now raw (.response 429 body json)).result =
      Except.ok (mockResult (normalizeUrl raw)) ∧
    (mockResult (normalizeUrl raw)).is_mock = true := by
  refine ⟨?_, rfl⟩
  simp [audit_url, upstreamAttempt, hc, hm, isExceptionSubclass]

theorem quota_429_falls_back_witness :
    (audit_url cacheEmpty 0 "example.com" (.response 429 "quota" none)).result =
      Except.ok (mockResult (normalizeUrl "example.com")) ∧
    (mockResult (normalizeUrl "example.com")).is_mock = true :=
  quota_429_falls_back cacheEmpty 0 "example.com" "quota" none rfl (by decide)

/-- C2 is refuted at a concrete input: on a fresh-miss call for
`example.com` whose upstream response is HTTP 500, the caller receives the
mock fallback report, not an HTTP error carrying the upstream status and
body — the `HTTPException` built by the inner handler is itself an
`Exception` and is swallowed by the outer `except Exception`. -/
theorem upstream_500_not_propagated :
    (audit_url cacheEmpty 0 "example.com" (.response 500 "server error" none)).result =
      Except.ok (mockResult "https://example.com") := by
  rfl

/-- C2 (amended): for every non-success, non-429 upstream status, the
inner handler does construct an `HTTPException` carrying the upstream
status and body, but the outer catch-all intercepts it: the caller
receives the fallback report with `is_mock = true`, never the error. -/
theorem upstream_error_masked_by_fallback (c : CacheMap) (now : Rat)
    (raw body : String) (status : Nat) (json : Option RawPayload)
    (hc : cacheGet c (normalizeUrl raw) now = none)
    (hm : strHasSub (normalizeUrl raw) "mock" = false)
    (h429 : status ≠ 429)
    (hbad : status < 200 ∨ 300 ≤ status) :
    (upstreamAttempt (normalizeUrl raw) (.response status body json)).1 =
      Except.error (.httpException status ("PageSpeed API error: " ++ body)) ∧
    (audit_url c now raw (.response status body json)).result =
      Except.ok (mockResult (normalizeUrl raw)) := by
  have hb : (status == 429) = false := beq_eq_false_iff_ne.mpr h429
  have hcond : (decide (status < 200) || decide (300 ≤ status)) = true := by
    rcases hbad with h | h <;> simp [h]
  have h1 : (upstreamAttempt (normalizeUrl raw) (.response status body json)).1 =
      Except.error (.httpException status ("PageSpeed API error: " ++ body)) := by
    simp [upstreamAttempt, hm, hb, hcond]
  refine ⟨h1, ?_⟩
  simp [audit_url, hc, h1, isExceptionSubclass]

theorem upstream_error_masked_by_fallback_witness :
    (upstreamAttempt (normalizeUrl "example.org") (.response 502 "bad gateway" none)).1 =
      Except.error (.httpException 502 ("PageSpeed API error: " ++ "bad gateway")) ∧
    (audit_url cacheEmpty 0 "example.org" (.response 502 "bad gateway" none)).result =
      Except.ok (mockResult (normalizeUrl "example.org")) :=
  upstream_error_masked_by_fallback cacheEmpty 0 "example.org" "bad gateway" 502 none
    rfl (by decide) (by decide) (Or.inr (by decide))

/-- C4 is refuted at a concrete input: `httpexample.com` does not begin
with a scheme, yet the source's `startswith("http")` test fires and the
URL is left unchanged instead of having `https://` prepended. -/
theorem scheme_claim_counterexample :
    beginsWithHttpScheme "httpexample.com" = false ∧
    normalizeUrl "httpexample.com" = "httpexample.com" ∧
    normalizeUrl "httpexample.com" ≠ "https://" ++ "httpexample.com" := by
  refine ⟨by decide, rfl, by decide⟩

/-- C4 (amended): the source tests the four-character prefix `http`, not a
scheme: every input not starting with `http` gets `https://` prepended,
and every input starting with `http` — in particular every `http://` or
`https://` URL — is left unchanged; the result is the cache key and the
upstream query parameter. -/
theorem normalize_prefix_rule (s : String) :
    (pyStartsWith s "http" = false → normalizeUrl s = "https://" ++ s) ∧
    (beginsWithHttpScheme s = true → normalizeUrl s = s) := by
  constructor <;> intro h
  · simp [normalizeUrl, h]
  · simp [normalizeUrl, pyStartsWith_http_of_scheme s h]

theorem normalize_prefix_rule_witness :
    normalizeUrl "example.com" = "https://" ++ "example.com" ∧
    normalizeUrl "https://site.example" = "https://site.example" :=
  ⟨(normalize_prefix_rule "example.com").1 (by decide),
   (normalize_prefix_rule "https://site.example").2 (by decide)⟩

/-- C7 is refuted at a concrete input: the mock block is inlined in the
handler and copies the enclosing `url` variable into the report, so two
invocations with different normalized URLs give reports that are not
bit-identical. -/
theorem fallback_varies_with_url :
    mockResult "https://one.example" ≠ mockResult "https://two.example" := by
  decide

/-- C7 (amended): the fallback generator is a function of the normalized
URL only; apart from the `url` field every field is the fixed literal —
scores performance 0.72, accessibility 0.85, best_practices 0.90, seo
0.92, fixed metric values, exactly the two fixed opportunities
(`unused-javascript` saving 350 ms, `modern-image-formats` saving 200 ms)
and `is_mock = true` — so any two invocations agree up to `url`. -/
theorem fallback_fixed_up_to_url (u v : String) :
    (mockResult u).url = u ∧
    (mockResult u).scores =
      { performance := some 0.72, accessibility := some 0.85,
        best_practices := some 0.90, seo := some 0.92 } ∧
    (mockResult u).metrics =
      { fcp := "1.2 s", fcp_score := some 0.85, lcp := "2.1 s",
        lcp_score := some 0.88, cls := "0.05", cls_score := some 0.95,
        tbt := "120 ms", tbt_score := some 0.90, si := "1.8 s",
        si_score := some 0.82 } ∧
    (mockResult u).opportunities =
      [ { id := "unused-javascript",
          title := some "Reduce unused JavaScript",
          description := some "Remove unused JavaScript to reduce bytes consumed by network activity.",
          score := 0.65, saving := 350 },
        { id := "modern-image-formats",
          title := some "Serve images in next-gen formats",
          description := some "Image formats like WebP and AVIF often provide better compression than PNG or JPEG.",
          score := 0.70, saving := 200 } ] ∧
    (mockResult u).is_mock = true ∧
    mockResult v = { mockResult u with url := v } :=
  ⟨rfl, rfl, rfl, rfl, rfl, rfl⟩

/-- C9: every call that does not return from a fresh cache hit ends with
the cache mapping the normalized URL to exactly the returned report (real
or mock) paired with the call's timestamp, overwriting whatever entry was
there before. -/
theorem audit_writes_cache (c : CacheMap) (now : Rat) (raw : String)
    (up : UpstreamOutcome)
    (h : cacheGet c (normalizeUrl raw) now = none) :
    ∃ r, (audit_url c now raw up).result = Except.ok r ∧
      (audit_url c now raw up).cache (normalizeUrl raw) =
        some { data := r, timestamp := now } := by
  simp only [audit_url, h]
  split
  · rename_i r _
    exact ⟨r, rfl, by simp [cachePut]⟩
  · rename_i e _
    rw [if_pos (isExceptionSubclass_eq_true e)]
    exact ⟨mockResult (normalizeUrl raw), rfl, by simp [cachePut]⟩

theorem audit_writes_cache_witness :
    ∃ r, (audit_url cacheEmpty 0 "example.net" .transportError).result = Except.ok r ∧
      (audit_url cacheEmpty 0 "example.net" .transportError).cache (normalizeUrl "example.net") =
        some { data := r, timestamp := 0 } :=
  audit_writes_cache cacheEmpty 0 "example.net" .transportError rfl

/-! Supporting lemmas for the mock-URL and normalizer claims. -/

theorem cacheGet_some (c : CacheMap) (k : String) (now : Rat) (r : Report)
    (h : cacheGet c k now = some r) : ∃ e, c k = some e ∧ e.data = r := by
  unfold cacheGet at h
  rcases hk : c k with _ | e
  · rw [hk] at h; cases h
  · rw [hk] at h
    dsimp only at h
    split at h
    · exact ⟨e, rfl, Option.some.inj h⟩
    · cases h

theorem upstreamAttempt_mock (url : String) (up : UpstreamOutcome)
    (hm : strHasSub url "mock" = true) :
    upstreamAttempt url up = (Except.error (.generic "Force mock"), false) := by
  simp [upstreamAttempt, hm]

theorem mockInv_empty : MockInv cacheEmpty :=
  fun _ _ hk _ => Option.noConfusion hk

theorem mockInv_preserved (c : CacheMap) (now : Rat) (raw : String)
    (up : UpstreamOutcome) (h : MockInv c) :
    MockInv (audit_url c now raw up).cache := by
  intro k e hk hmk
  revert hk
  simp only [audit_url]
  split
  · exact fun hk => h k e hk hmk
  · split
    · rename_i r hr
      simp only [cachePut]
      split
      · rename_i hku
        intro hk
        rw [beq_iff_eq.mp hku] at hmk
        rw [upstreamAttempt_mock _ up hmk] at hr
        cases hr
      · exact fun hk => h k e hk hmk
    · rename_i e' he'
      rw [if_pos (isExceptionSubclass_eq_true e')]
      simp only [cachePut]
      split
      · intro hk
        rw [← Option.some.inj hk]
        rfl
      · exact fun hk => h k e hk hmk

/-- C5: on every cache state reachable by the service (captured by
`MockInv`), an audit of a URL whose normalized form contains the literal
substring `mock` never issues the upstream GET and always returns a
report with `is_mock = true`. -/
theorem mock_url_bypasses_upstream (c : CacheMap) (now : Rat) (raw : String)
    (up : UpstreamOutcome) (hinv : MockInv c)
    (hm : strHasSub (normalizeUrl raw) "mock" = true) :
    (audit_url c now raw up).upstreamCalled = false ∧
    ∃ r, (audit_url c now raw up).result = Except.ok r ∧ r.is_mock = true := by
  simp only [audit_url]
  split
  · rename_i r hr
    refine ⟨rfl, r, rfl, ?_⟩
    rcases cacheGet_some c _ now r hr with ⟨e, he, hd⟩
    exact hd ▸ hinv _ e he hm
  · rw [upstreamAttempt_mock _ up hm]
    exact ⟨rfl, mockResult (normalizeUrl raw), rfl, rfl⟩

theorem mock_url_bypasses_upstream_witness :
    (audit_url cacheEmpty 0 "mock-site.example" .transportError).upstreamCalled = false ∧
    ∃ r, (audit_url cacheEmpty 0 "mock-site.example" .transportError).result = Except.ok r ∧
      r.is_mock = true :=
  mock_url_bypasses_upstream cacheEmpty 0 "mock-site.example" .transportError
    mockInv_empty (by decide)

/-! Supporting lemmas for the opportunity-extraction claims. -/

theorem selectOpp_error_eq (a : AuditEntry) (err : PyExc)
    (hs : selectOpp a = .error err) : err = .typeError := by
  unfold selectOpp at hs
  split at hs
  · split at hs
    · cases hs
    · exact (Except.error.inj hs).symm
    · split at hs <;> cases hs
  · cases hs

theorem collectOpps_ok_of_noNull (es : List AuditEntry) (h : NoNullOppScore es) :
    collectOpps es = Except.ok ((specSelected es).map specEmit) := by
  induction es with
  | nil => rfl
  | cons a as ih =>
    have hrec := ih (fun e he h1 h2 => h e (List.mem_cons_of_mem a he) h1 h2)
    have h09 : ¬ ((1 : Rat) < 0.9) := by norm_num
    by_cases ht : a.detailsType = some "opportunity"
    · cases hsc : a.score with
      | none =>
        simp [collectOpps, selectOpp, specSelected, List.filter_cons, ht, hsc,
          hrec, h09]
      | some so =>
        cases so with
        | none => exact (h a (List.mem_cons_self a as) ht hsc).elim
        | some q =>
          by_cases hq : q < 0.9
          · simp [collectOpps, selectOpp, specSelected, specEmit,
              List.filter_cons, ht, hsc, hq, hrec]
          · simp [collectOpps, selectOpp, specSelected, List.filter_cons, ht,
              hsc, hq, hrec]
    · simp [collectOpps, selectOpp, specSelected, List.filter_cons, ht, hrec]

theorem collectOpps_error_of_nullScore (es : List AuditEntry)
    (h : ∃ e ∈ es, e.detailsType = some "opportunity" ∧ e.score = some none) :
    collectOpps es = Except.error PyExc.typeError := by
  induction es with
  | nil =>
    rcases h with ⟨e, he, _⟩
    cases he
  | cons a as ih =>
    rcases h with ⟨e, he, h1, h2⟩
    rcases List.mem_cons.mp he with rfl | hmem
    · simp [collectOpps, selectOpp, h1, h2]
    · cases hs : selectOpp a with
      | error err =>
        rw [selectOpp_error_eq a err hs] at hs
        simp [collectOpps, hs]
      | ok o =>
        have herr := ih ⟨e, hmem, h1, h2⟩
        simp [collectOpps, hs, herr]

/-- C6: on every raw payload whose opportunity-typed entries carry no
`null` score (the shape on which the scan raises instead), the
normalizer's opportunities list is exactly the entries with
`details.type = "opportunity"` and score strictly below 0.9 (an omitted
score defaults to 1 and is excluded), emitted as `{id, title,
description, score, saving}` with `saving` defaulting to 0, stably sorted
by `saving` descending and truncated to at most 5. -/
theorem normalizer_opportunities (url : String) (p : RawPayload)
    (h : NoNullOppScore p.audits) :
    (buildResult url p).map Report.opportunities =
      Except.ok (specOpportunities p.audits) := by
  simp [buildResult, collectOpps_ok_of_noNull p.audits h, specOpportunities,
    Except.map]

theorem normalizer_opportunities_witness :
    (buildResult "https://sample.example" samplePayload).map Report.opportunities =
      Except.ok (specOpportunities samplePayload.audits) :=
  normalizer_opportunities "https://sample.example" samplePayload
    (by unfold NoNullOppScore; decide)

/-- C10: a 2xx upstream response with valid JSON that contains an
opportunity-typed audit entry whose `score` is present but `null` makes
the scan's `None < 0.9` comparison raise `TypeError`, so the call returns
the fallback report with `is_mock = true` instead of a normalized report
of the successful payload. -/
theorem null_score_forces_mock (c : CacheMap) (now : Rat) (raw body : String)
    (status : Nat) (p : RawPayload)
    (hc : cacheGet c (normalizeUrl raw) now = none)
    (hm : strHasSub (normalizeUrl raw) "mock" = false)
    (h2xx : 200 ≤ status ∧ status < 300)
    (hnull : ∃ e ∈ p.audits,
      e.detailsType = some "opportunity" ∧ e.score = some none) :
    (audit_url c now raw (.response status body (some p))).result =
      Except.ok (mockResult (normalizeUrl raw)) ∧
    (mockResult (normalizeUrl raw)).is_mock = true := by
  refine ⟨?_, rfl⟩
  have hb : (status == 429) = false := beq_eq_false_iff_ne.mpr (by omega)
  have hcond : (decide (status < 200) || decide (300 ≤ status)) = false := by
    simp only [Bool.or_eq_false_iff, decide_eq_false_iff_not]
    omega
  have hbuild : buildResult (normalizeUrl raw) p = Except.error PyExc.typeError := by
    simp [buildResult, collectOpps_error_of_nullScore p.audits hnull]
  have h1 : (upstreamAttempt (normalizeUrl raw) (.response status body (some p))).1 =
      Except.error PyExc.typeError := by
    simp [upstreamAttempt, hm, hb, hcond, hbuild]
  simp [audit_url, hc, h1, isExceptionSubclass]

theorem null_score_forces_mock_witness :
    (audit_url cacheEmpty 0 "example.dev" (.response 200 "" (some nullScorePayload))).result =
      Except.ok (mockResult (normalizeUrl "example.dev")) ∧
    (mockResult (normalizeUrl "example.dev")).is_mock = true :=
  null_score_forces_mock cacheEmpty 0 "example.dev" "" 200 nullScorePayload rfl
    (by decide) (by omega) (by decide)

end PerfService
